import Mathlib

/-!
Shallow embedding of `usb_hid_sniffer_rs` (`src/main.rs`) and verification of
the frozen claims about it.

The embedding follows the source file closely:
* `ClassCode` and `ClassCode.from_u8` embed the class-code resolver
  (src/main.rs lines 59-156);
* `DeviceInfo`, `ConfigDescriptor`, `Interfaces`, `Endpoint` embed the
  descriptor tree (lines 158-244), with `Raw*` structures standing for the
  libusb descriptor accessors the tree is built from;
* `UsbDevices.new` embeds the enumerator (lines 251-301), with the libusb
  context modelled as an `Except`-valued device list and each accessor that
  can fail in the source (`device_descriptor()?`, `config_descriptor(c)?`)
  modelled as an `Except` field;
* `sessionLoop` embeds the interactive capture loop of `write_to_device`
  (lines 336-419), driven by a scripted transport (a list of interrupt-read
  results) and a scripted console (a list of input lines);
* `persistKeymaps` embeds the persistence tail of `write_to_device`
  (lines 416-418);
* the keymap JSON serializer/parser pair is modelled from the spec, since
  the serialization itself is performed by the external `serde_json`
  collaborator and is not part of the repository's source.
-/

namespace UsbSniffer

/-- Class-code category, from the `ClassCode` enum (src/main.rs lines 59-86). -/
inductive ClassCode where
  | Audio
  | CommunicationAndCdcDescriptors
  | HumanInterfaceDevice
  | Physical
  | Image
  | Printer
  | MassStorage
  | Hub
  | CdcData
  | SmartCard
  | ContentSecurity
  | Video
  | PersonalHealthcare
  | AudioVideoDevices
  | BillboardDeviceClass
  | USBTypeCBridgeClass
  | USBBulkDisplayProtocolDeviceClass
  | MCTPOverUSBProtocolDeviceClass
  | I3CDeviceClass
  | DiagnosticDevice
  | WirelessController
  | Miscellaneous
  | ApplicationSpecific
  | VenderSpecific
  | Unknown
  deriving DecidableEq

/-- `ClassCode::from_u8` (src/main.rs lines 126-156): a total match on the
byte value with a catch-all `Unknown` arm.  Byte values are modelled as `Nat`
(the claims quantify over `n < 256`). -/
def ClassCode.from_u8 (num : Nat) : ClassCode :=
  match num with
  | 0x01 => .Audio
  | 0x02 => .CommunicationAndCdcDescriptors
  | 0x03 => .HumanInterfaceDevice
  | 0x05 => .Physical
  | 0x06 => .Image
  | 0x07 => .Printer
  | 0x08 => .MassStorage
  | 0x09 => .Hub
  | 0x0A => .CdcData
  | 0x0B => .SmartCard
  | 0x0D => .ContentSecurity
  | 0x0E => .Video
  | 0x0F => .PersonalHealthcare
  | 0x10 => .AudioVideoDevices
  | 0x11 => .BillboardDeviceClass
  | 0x12 => .USBTypeCBridgeClass
  | 0x13 => .USBBulkDisplayProtocolDeviceClass
  | 0x14 => .MCTPOverUSBProtocolDeviceClass
  | 0x3C => .I3CDeviceClass
  | 0xDC => .DiagnosticDevice
  | 0xE0 => .WirelessController
  | 0xEF => .Miscellaneous
  | 0xFE => .ApplicationSpecific
  | 0xFF => .VenderSpecific
  | _ => .Unknown

/-- The byte values that appear as explicit arms of the `from_u8` match
(the "assigned table" of the spec). -/
def assignedClassCodes : List Nat :=
  [0x01, 0x02, 0x03, 0x05, 0x06, 0x07, 0x08, 0x09, 0x0A, 0x0B, 0x0D, 0x0E,
   0x0F, 0x10, 0x11, 0x12, 0x13, 0x14, 0x3C, 0xDC, 0xE0, 0xEF, 0xFE, 0xFF]

/-- libusb `Direction` (re-exported and stored in `Endpoint`). -/
inductive Direction where
  | In
  | Out
  deriving DecidableEq

/-- libusb `TransferType` (stored in `Endpoint`). -/
inductive TransferType where
  | Control
  | Isochronous
  | Bulk
  | Interrupt
  deriving DecidableEq

/-- libusb `SyncType` (stored in `Endpoint`). -/
inductive SyncType where
  | NoSync
  | Asynchronous
  | Adaptive
  | Synchronous
  deriving DecidableEq

/-- libusb `UsageType` (stored in `Endpoint`). -/
inductive UsageType where
  | Data
  | Feedback
  | FeedbackData
  deriving DecidableEq

/-- `Endpoint` (src/main.rs lines 220-230).  Numeric fields are `Nat`. -/
structure Endpoint where
  max_packet_size : Nat
  endpoint_number : Nat
  interval : Nat
  transfer_type : TransferType
  sync_type : SyncType
  address : Nat
  direction : Direction
  usage_type : UsageType
  deriving DecidableEq

/-- `Interfaces` (src/main.rs lines 181-190). -/
structure Interfaces where
  number : Nat
  num_endpoints : Nat
  interface_number : Nat
  class_code : ClassCode
  subclass_code : Nat
  description_string_index : Option Nat
  endpoints : List Endpoint
  deriving DecidableEq

/-- `ConfigDescriptor` (src/main.rs lines 210-218). -/
structure ConfigDescriptor where
  num_interfaces : Nat
  max_power : Nat
  self_powered : Bool
  number : Nat
  remote_wakeup : Bool
  interfaces : List Interfaces
  deriving DecidableEq

/-- `DeviceInfo` (src/main.rs lines 158-173): vendor and product ids are the
already-formatted four-hex-digit strings. -/
structure DeviceInfo where
  vendor_id : String
  product_id : String
  class_code : ClassCode
  subclass_code : Nat
  num_configurations : Nat
  protocol_code : Nat
  max_packet_size : Nat
  configurations : List ConfigDescriptor
  deriving DecidableEq

/-- `DeviceInfo::get_id` (src/main.rs lines 176-178):
`format!("\x7b\x7d:\x7b\x7d", vendor_id, product_id)`. -/
def DeviceInfo.get_id (self : DeviceInfo) : String :=
  self.vendor_id ++ ":" ++ self.product_id

/-- The raw libusb endpoint descriptor accessors used by `Endpoint::new`
(src/main.rs lines 231-244); none of them can fail. -/
structure RawEndpointDesc where
  max_packet_size : Nat
  number : Nat
  interval : Nat
  transfer_type : TransferType
  sync_type : SyncType
  direction : Direction
  usage_type : UsageType
  address : Nat

/-- `Endpoint::new` (src/main.rs lines 231-244). -/
def Endpoint.new (ep : RawEndpointDesc) : Endpoint :=
  { max_packet_size := ep.max_packet_size
    endpoint_number := ep.number
    interval := ep.interval
    transfer_type := ep.transfer_type
    sync_type := ep.sync_type
    direction := ep.direction
    usage_type := ep.usage_type
    address := ep.address }

/-- The raw libusb interface descriptor accessors used by `Interfaces::new`
(src/main.rs lines 192-207); none of them can fail. -/
structure RawInterfaceDesc where
  interface_number : Nat
  num_endpoints : Nat
  class_code : Nat
  sub_class_code : Nat
  description_string_index : Option Nat
  endpoint_descriptors : List RawEndpointDesc

/-- `Interfaces::new` (src/main.rs lines 192-207). -/
def Interfaces.new (i : RawInterfaceDesc) : Interfaces :=
  { number := i.interface_number
    num_endpoints := i.num_endpoints
    interface_number := i.interface_number
    class_code := ClassCode.from_u8 i.class_code
    subclass_code := i.sub_class_code
    description_string_index := i.description_string_index
    endpoints := i.endpoint_descriptors.map (fun endpoint => Endpoint.new endpoint) }

/-- The raw libusb configuration descriptor accessors used in
`UsbDevices::new` (src/main.rs lines 278-293).  `interfaces` is the list of
interface groups, each a list of alternate-setting descriptors, matching the
nested `for interface in c.interfaces()` / `for interface_descriptor in
interface.descriptors()` loops. -/
structure RawConfigDesc where
  number : Nat
  max_power : Nat
  self_powered : Bool
  remote_wakeup : Bool
  num_interfaces : Nat
  interfaces : List (List RawInterfaceDesc)

/-- The configuration subtree built from one raw configuration descriptor by
the loop body at src/main.rs lines 276-294. -/
def buildConfigDescriptor (c : RawConfigDesc) : ConfigDescriptor :=
  { number := c.number
    max_power := c.max_power
    self_powered := c.self_powered
    remote_wakeup := c.remote_wakeup
    num_interfaces := c.num_interfaces
    interfaces :=
      (c.interfaces.map (fun interface => interface.map Interfaces.new)).flatten }

/-- The raw device-level descriptor accessors (src/main.rs lines 264-272). -/
structure RawDeviceDesc where
  vendor_id : Nat
  product_id : Nat
  class_code : Nat
  sub_class_code : Nat
  num_configurations : Nat
  protocol_code : Nat
  max_packet_size : Nat

/-- One raw device handle as seen by `UsbDevices::new`: the two descriptor
reads that can fail in the source (`device_descriptor()?` at line 262 and
`config_descriptor(c)?` at line 276) are modelled as `Except`-valued. -/
structure RawDevice where
  device_descriptor : Except String RawDeviceDesc
  config_descriptor : Nat → Except String RawConfigDesc

/-- `format!("\x7b:04x\x7d", n)` applied to a `u16` value (src/main.rs lines
265-266 and 346-350): exactly four lowercase hexadecimal digits, zero-padded.
The formatted values (`vendor_id()`, `product_id()`) are `u16`, so the
four-digit form is exact for every value the source can pass. -/
def formatHex4 (n : Nat) : String :=
  String.mk [Nat.digitChar (n / 4096 % 16), Nat.digitChar (n / 256 % 16),
             Nat.digitChar (n / 16 % 16), Nat.digitChar (n % 16)]

/-- A lowercase hexadecimal digit: `0`-`9` or `a`-`f`. -/
def isLowerHexDigit (c : Char) : Bool :=
  c.isDigit || ('a' ≤ c && c ≤ 'f')

/-- `Ok`-test on an `Except` value. -/
def exceptIsOk {α : Type} (x : Except String α) : Bool :=
  match x with
  | .ok _ => true
  | .error _ => false

/-- The effect of a Rust `for` loop whose body ends each iteration with a
`?`-propagated push: map `f` over the list, stopping at the first `Err`. -/
def mapMExcept {α β : Type} (f : α → Except String β) : List α → Except String (List β)
  | [] => .ok []
  | a :: l =>
    match f a with
    | .error e => .error e
    | .ok b =>
      match mapMExcept f l with
      | .error e => .error e
      | .ok bs => .ok (b :: bs)

/-- The `DeviceInfo` tree built for one raw device by the loop body of
`UsbDevices::new` (src/main.rs lines 261-298): read the device descriptor,
then one configuration descriptor per index in `0..num_configurations`,
failing the whole build on the first read error (the `?` operators). -/
def buildDevice (i : RawDevice) : Except String DeviceInfo :=
  match i.device_descriptor with
  | .error e => .error e
  | .ok d =>
    match mapMExcept (fun c =>
        match i.config_descriptor c with
        | .error e => .error e
        | .ok c => .ok (buildConfigDescriptor c)) (List.range d.num_configurations) with
    | .error e => .error e
    | .ok configurations =>
      .ok
        { vendor_id := formatHex4 d.vendor_id
          product_id := formatHex4 d.product_id
          class_code := ClassCode.from_u8 d.class_code
          subclass_code := d.sub_class_code
          num_configurations := d.num_configurations
          protocol_code := d.protocol_code
          max_packet_size := d.max_packet_size
          configurations := configurations }

/-- `UsbDevices` (src/main.rs lines 246-249). -/
structure UsbDevices where
  devices : List DeviceInfo
  deriving DecidableEq

/-- `UsbDevices::new` (src/main.rs lines 252-301).  The context creation and
device listing (`Context::new()?` / `ctx.devices()?`) are modelled as one
`Except`-valued device list `ctx`; the per-device loop propagates the first
device's build failure with `?`, aborting the whole enumeration. -/
def UsbDevices.new (ctx : Except String (List RawDevice)) : Except String UsbDevices :=
  match ctx with
  | .error e => .error e
  | .ok devices =>
    match mapMExcept buildDevice devices with
    | .error e => .error e
    | .ok infos => .ok { devices := infos }

/-- `UsbDevices::get_by_id` (src/main.rs lines 302-307): first device whose
formatted identity equals `id` (`.find(..)` followed by a clone). -/
def UsbDevices.get_by_id (self : UsbDevices) (id : String) : Option DeviceInfo :=
  self.devices.find? (fun e => e.get_id == id)

/-- `Keymap` (src/main.rs lines 328-332).  The `map: [u8; 8]` array is a
list of byte values (always of length 8 where the session produces it). -/
structure Keymap where
  key_name : String
  map : List Nat
  deriving DecidableEq

/-- One result of `handler.read_interrupt(endpoint, &mut buf, ...)` from the
scripted transport: either `Ok(size)` with the bytes written into the buffer,
or `Err(_)`. -/
inductive ReadResult where
  | ok (size : Nat) (data : List Nat)
  | err
  deriving DecidableEq

/-- The 8-byte buffer after a read wrote `data` over the zero-initialised
`[0u8; 8]` (src/main.rs lines 368, 385). -/
def fillBuf (data : List Nat) : List Nat :=
  (data ++ List.replicate 8 0).take 8

/-- The buffer after the blocking capture read at src/main.rs line 386:
the call's `Result` is discarded, so on `Err` the buffer keeps its zeros. -/
def blockingBuf (r : ReadResult) : List Nat :=
  match r with
  | .ok _ data => fillBuf data
  | .err => List.replicate 8 0

/-- The draining loop (src/main.rs lines 367-375): read with a 100 ms
timeout, mapping a failure to size 0 with `unwrap_or(0)`, and stop as soon
as the size is 0.  Returns the unconsumed script, or `none` when the script
is exhausted while the loop still wants data (the real loop would block). -/
def drainLoop : List ReadResult → Option (List ReadResult)
  | [] => none
  | ReadResult.ok size _ :: rest => if size = 0 then some rest else drainLoop rest
  | ReadResult.err :: rest => some rest

/-- `s.strip_suffix("\n")` as used at src/main.rs lines 388 and 403, on the
character list of the line. -/
def stripSuffixNl : List Char → Option (List Char)
  | [] => none
  | [c] => if c = '\n' then some [] else none
  | c :: rest => (stripSuffixNl rest).map (fun r => c :: r)

/-- `s.strip_suffix("\n")` on a console line. -/
def stripNewline (s : String) : Option String :=
  (stripSuffixNl s.data).map String.mk

/-- Result of the menu sub-loop (src/main.rs lines 397-414). -/
inductive MenuResult where
  | quit
  | next (rest : List String)
  | panicked
  | blocked
  deriving DecidableEq

/-- The `'options` menu loop (src/main.rs lines 397-414): read a line, strip
the newline with `.unwrap()` (panicking when there is none), quit on `Q`/`q`,
continue on `N`/`n`, and on any other input print a message and repeat the
same prompt. -/
def menuLoop : List String → MenuResult
  | [] => .blocked
  | line :: rest =>
    match stripNewline line with
    | none => .panicked
    | some s =>
      if s = "Q" ∨ s = "q" then .quit
      else if s = "N" ∨ s = "n" then .next rest
      else menuLoop rest

/-- Outcome of one scripted capture session, with the keymap entries
accumulated up to that point.  `finished` means the `'outer` loop was left
via `Q` and control reached the persistence tail; `panicked` means an
`.unwrap()` on a newline-less console line aborted the process (the entries
are never persisted); `blocked` means the script ran out while the session
still waited for input. -/
inductive SessionOutcome where
  | finished (keymaps : List Keymap)
  | panicked (keymaps : List Keymap)
  | blocked (keymaps : List Keymap)
  deriving DecidableEq

/-- The `'outer` capture loop of `write_to_device` (src/main.rs lines
366-415), driven by a scripted transport `reads` and scripted console
`lines`: drain stale reports, read a name line (stripping its newline with
`.unwrap()`), issue the blocking capture read (its `Result` discarded), push
the `Keymap` entry, then run the menu loop.  `fuel` bounds the number of
outer iterations; each concrete script needs only finitely many. -/
def sessionLoop : Nat → List ReadResult → List String → List Keymap → SessionOutcome
  | 0, _, _, acc => .blocked acc
  | fuel + 1, reads, lines, acc =>
    match drainLoop reads with
    | none => .blocked acc
    | some reads1 =>
      match lines with
      | [] => .blocked acc
      | nameLine :: lines1 =>
        match stripNewline nameLine with
        | none => .panicked acc
        | some keyname =>
          match reads1 with
          | [] => .blocked acc
          | r :: reads2 =>
            let acc1 := acc ++ [{ key_name := keyname, map := blockingBuf r }]
            match menuLoop lines1 with
            | .quit => .finished acc1
            | .next lines2 => sessionLoop fuel reads2 lines2 acc1
            | .panicked => .panicked acc1
            | .blocked => .blocked acc1

/-- Outcome of the persistence tail (src/main.rs lines 416-418). -/
inductive PersistOutcome where
  | panicked
  | completed (written : Bool)
  deriving DecidableEq

/-- The persistence tail of `write_to_device` (src/main.rs lines 416-418):
`serde_json::to_string(&keymaps).unwrap()` and `File::create(..).unwrap()`
panic on failure, while the result of `file.write_all(..)` is discarded, so
a failed write still completes with exit code 0.  The three booleans script
whether serialization, file creation and the write succeed. -/
def persistKeymaps (serOk createOk writeOk : Bool) : PersistOutcome :=
  if serOk then
    if createOk then .completed writeOk
    else .panicked
  else .panicked

/-- Modelled from the spec: the JSON text produced for the keymap sequence is
generated by the external `serde_json` collaborator (src/main.rs line 416)
and its code is not part of this repository.  A string character is escaped
exactly when JSON requires a backslash for it in the names this session can
produce: quote and backslash. -/
def escapeChar (c : Char) : List Char :=
  if c = '"' ∨ c = '\\' then ['\\', c] else [c]

/-- Modelled from the spec: JSON escaping of a whole key name. -/
def escapeString (cs : List Char) : List Char :=
  (cs.map escapeChar).flatten

/-- Modelled from the spec: decimal rendering of one byte value (`u8`),
as `serde_json` prints array elements of `map: [u8; 8]`. -/
def showByte (n : Nat) : List Char :=
  if n < 10 then [Nat.digitChar n]
  else if n < 100 then [Nat.digitChar (n / 10), Nat.digitChar (n % 10)]
  else [Nat.digitChar (n / 100), Nat.digitChar (n / 10 % 10), Nat.digitChar (n % 10)]

/-- Modelled from the spec: the comma-preceded elements of the report array
after the first, then the closing bracket. -/
def serializeMapTail (bs : List Nat) : List Char :=
  match bs with
  | [] => [']']
  | b :: rest => ',' :: showByte b ++ serializeMapTail rest

/-- Modelled from the spec: the JSON array text for the 8-byte report
(comma-separated decimal bytes between brackets). -/
def serializeMap (bs : List Nat) : List Char :=
  match bs with
  | [] => ['[', ']']
  | b :: rest => '[' :: showByte b ++ serializeMapTail rest

/-- The literal `"key_name":"` that precedes the escaped key name in one
serialized `Keymap` object. -/
def keyNameLit : List Char :=
  ['"', 'k', 'e', 'y', '_', 'n', 'a', 'm', 'e', '"', ':', '"']

/-- The literal `,"map":` that follows the key name's closing quote. -/
def mapLit : List Char :=
  [',', '"', 'm', 'a', 'p', '"', ':']

/-- Modelled from the spec: the JSON object text for one `Keymap` entry, with
the fields in declaration order (`key_name`, then `map`), as `serde_json`
serializes the derived struct (src/main.rs lines 328-332). -/
def serializeKeymapChars (k : Keymap) : List Char :=
  '\x7b' :: keyNameLit ++ escapeString k.key_name.data ++ '"' :: mapLit ++
    serializeMap k.map ++ ['\x7d']

/-- Modelled from the spec: the serialized text of all entries after the
first, each preceded by the separating comma, then the closing bracket. -/
def serializeKeymapsTail (ks : List Keymap) : List Char :=
  match ks with
  | [] => [']']
  | k :: rest => ',' :: serializeKeymapChars k ++ serializeKeymapsTail rest

/-- Modelled from the spec: `serde_json::to_string(&keymaps)` — the JSON
array text of the accumulated keymap sequence (src/main.rs line 416). -/
def serializeKeymaps (ks : List Keymap) : String :=
  match ks with
  | [] => String.mk ['[', ']']
  | k :: rest => String.mk ('[' :: serializeKeymapChars k ++ serializeKeymapsTail rest)

/-- Consume one expected character. -/
def parseChar (c : Char) : List Char → Option (List Char)
  | [] => none
  | x :: rest => if x = c then some rest else none

/-- Consume an expected literal character sequence. -/
def parseLit : List Char → List Char → Option (List Char)
  | [], cs => some cs
  | _ :: _, [] => none
  | l :: ls, c :: cs => if c = l then parseLit ls cs else none

/-- Modelled from the spec: parse a JSON string body up to and including the
closing quote, undoing one-character backslash escapes. -/
def parseStringBody : List Char → Option (List Char × List Char)
  | [] => none
  | c :: rest =>
    if c = '"' then some ([], rest)
    else if c = '\\' then
      match rest with
      | [] => none
      | e :: rest2 => (parseStringBody rest2).map (fun p => (e :: p.1, p.2))
    else (parseStringBody rest).map (fun p => (c :: p.1, p.2))

/-- Longest digit run at the head of the input, with the remainder. -/
def takeDigits : List Char → List Char × List Char
  | [] => ([], [])
  | c :: rest =>
    if c.isDigit then
      let p := takeDigits rest
      (c :: p.1, p.2)
    else ([], c :: rest)

/-- Decimal value of a digit run. -/
def digitsVal (ds : List Char) : Nat :=
  ds.foldl (fun a c => a * 10 + (c.toNat - 48)) 0

/-- Modelled from the spec: parse one decimal byte value. -/
def parseByteNum (cs : List Char) : Option (Nat × List Char) :=
  match takeDigits cs with
  | ([], _) => none
  | (ds, r) => some (digitsVal ds, r)

/-- Parse one decimal byte value followed by one expected character. -/
def parseByteThen (sep : Char) (cs : List Char) : Option (Nat × List Char) :=
  match parseByteNum cs with
  | none => none
  | some (b, r) =>
    match parseChar sep r with
    | none => none
    | some r2 => some (b, r2)

/-- Modelled from the spec: parse the JSON array text of an 8-byte report;
deserializing into `map: [u8; 8]` requires exactly eight elements. -/
def parseMap (cs : List Char) : Option (List Nat × List Char) :=
  match parseChar '[' cs with
  | none => none
  | some cs0 =>
  match parseByteThen ',' cs0 with
  | none => none
  | some (b0, cs1) =>
  match parseByteThen ',' cs1 with
  | none => none
  | some (b1, cs2) =>
  match parseByteThen ',' cs2 with
  | none => none
  | some (b2, cs3) =>
  match parseByteThen ',' cs3 with
  | none => none
  | some (b3, cs4) =>
  match parseByteThen ',' cs4 with
  | none => none
  | some (b4, cs5) =>
  match parseByteThen ',' cs5 with
  | none => none
  | some (b5, cs6) =>
  match parseByteThen ',' cs6 with
  | none => none
  | some (b6, cs7) =>
  match parseByteThen ']' cs7 with
  | none => none
  | some (b7, cs8) => some ([b0, b1, b2, b3, b4, b5, b6, b7], cs8)

/-- Modelled from the spec: parse one serialized `Keymap` object. -/
def parseKeymapEntry (cs : List Char) : Option (Keymap × List Char) :=
  match parseLit ('\x7b' :: keyNameLit) cs with
  | none => none
  | some cs0 =>
  match parseStringBody cs0 with
  | none => none
  | some (name, cs1) =>
  match parseLit mapLit cs1 with
  | none => none
  | some cs2 =>
  match parseMap cs2 with
  | none => none
  | some (bs, cs3) =>
  match parseChar '\x7d' cs3 with
  | none => none
  | some cs4 => some ({ key_name := String.mk name, map := bs }, cs4)

/-- Modelled from the spec: parse the remaining entries of the array, each
preceded by a comma, until the closing bracket.  `fuel` bounds the number of
entries; the caller passes the remaining input length, which suffices since
every entry consumes at least its separating comma. -/
def parseKeymapsTail : Nat → List Char → Option (List Keymap × List Char)
  | _, ']' :: rest => some ([], rest)
  | fuel + 1, ',' :: cs =>
    (match parseKeymapEntry cs with
     | none => none
     | some (k, cs2) =>
       match parseKeymapsTail fuel cs2 with
       | none => none
       | some (ks, rest) => some (k :: ks, rest))
  | _, _ => none

/-- Modelled from the spec: re-parse a persisted keymap document, the inverse
direction of the serialization round-trip. -/
def parseKeymaps (s : String) : Option (List Keymap) :=
  match s.data with
  | '[' :: ']' :: rest => if rest.isEmpty then some [] else none
  | '[' :: cs =>
    (match parseKeymapEntry cs with
     | none => none
     | some (k, cs2) =>
       match parseKeymapsTail cs2.length cs2 with
       | none => none
       | some (ks, rest) => if rest.isEmpty then some (k :: ks) else none)
  | _ => none

/-- A keymap entry whose report is a real `[u8; 8]` value: eight bytes, each
below 256. -/
abbrev wellFormedKeymap (k : Keymap) : Prop :=
  k.map.length = 8 ∧ ∀ b ∈ k.map, b < 256

/-- No-digit head test, used to delimit a decimal byte from the following
JSON punctuation. -/
def headNonDigit : List Char → Bool
  | [] => true
  | c :: _ => !c.isDigit

/-- A raw device whose device-level descriptor read fails. -/
def rawDevBad : RawDevice :=
  { device_descriptor := .error "device descriptor read failed"
    config_descriptor := fun _ => .error "device descriptor read failed" }

/-- A raw device whose build succeeds (no configurations to read). -/
def rawDevOk : RawDevice :=
  { device_descriptor := .ok
      { vendor_id := 0x04d8, product_id := 0x00dd, class_code := 0,
        sub_class_code := 0, num_configurations := 0, protocol_code := 0,
        max_packet_size := 8 }
    config_descriptor := fun _ => .error "unused" }

/-- A raw configuration descriptor with no interfaces. -/
def rawCfg : RawConfigDesc :=
  { number := 1, max_power := 100, self_powered := false, remote_wakeup := false,
    num_interfaces := 0, interfaces := [] }

/-- A raw device declaring two configurations, both readable. -/
def rawDevTwoCfg : RawDevice :=
  { device_descriptor := .ok
      { vendor_id := 0x04d8, product_id := 0x00dd, class_code := 3,
        sub_class_code := 1, num_configurations := 2, protocol_code := 2,
        max_packet_size := 8 }
    config_descriptor := fun _ => .ok rawCfg }

/-- The `DeviceInfo` tree `buildDevice` produces for `rawDevTwoCfg`. -/
def diTwoCfg : DeviceInfo :=
  { vendor_id := "04d8", product_id := "00dd",
    class_code := ClassCode.HumanInterfaceDevice, subclass_code := 1,
    num_configurations := 2, protocol_code := 2, max_packet_size := 8,
    configurations :=
      [{ num_interfaces := 0, max_power := 100, self_powered := false,
         number := 1, remote_wakeup := false, interfaces := [] },
       { num_interfaces := 0, max_power := 100, self_powered := false,
         number := 1, remote_wakeup := false, interfaces := [] }] }

/-- A device tree with identity `04d8:00dd`. -/
def devDup1 : DeviceInfo :=
  { vendor_id := formatHex4 0x04d8, product_id := formatHex4 0x00dd,
    class_code := ClassCode.Unknown, subclass_code := 0, num_configurations := 0,
    protocol_code := 0, max_packet_size := 8, configurations := [] }

/-- A second, distinct device tree reporting the same `04d8:00dd` identity. -/
def devDup2 : DeviceInfo :=
  { vendor_id := formatHex4 0x04d8, product_id := formatHex4 0x00dd,
    class_code := ClassCode.Unknown, subclass_code := 1, num_configurations := 0,
    protocol_code := 0, max_packet_size := 64, configurations := [] }

/-- An enumerated set holding two devices with the same identity. -/
def usDup : UsbDevices :=
  { devices := [devDup1, devDup2] }

lemma exceptIsOk_ok {α : Type} (b : α) : exceptIsOk (Except.ok b) = true := rfl

lemma exceptIsOk_error {α : Type} (e : String) :
    exceptIsOk (Except.error e : Except String α) = false := rfl

lemma mapMExcept_ok_length {α β : Type} (f : α → Except String β) :
    ∀ (l : List α) (l2 : List β), mapMExcept f l = Except.ok l2 → l2.length = l.length := by
  intro l
  induction l with
  | nil =>
    intro l2 h
    simp only [mapMExcept] at h
    injection h with h2
    subst h2
    rfl
  | cons a t ih =>
    intro l2 h
    simp only [mapMExcept] at h
    cases hfa : f a with
    | error e =>
      simp only [hfa] at h
      exact Except.noConfusion h
    | ok b =>
      simp only [hfa] at h
      cases hrec : mapMExcept f t with
      | error e =>
        simp only [hrec] at h
        exact Except.noConfusion h
      | ok bs =>
        simp only [hrec] at h
        injection h with h2
        subst h2
        simp [ih _ hrec]

lemma mapMExcept_ok_get {α β : Type} (f : α → Except String β) :
    ∀ (l : List α) (l2 : List β), mapMExcept f l = Except.ok l2 →
      ∀ (i : Nat) (hi : i < l.length) (hj : i < l2.length),
        f (l.get ⟨i, hi⟩) = Except.ok (l2.get ⟨i, hj⟩) := by
  intro l
  induction l with
  | nil =>
    intro l2 h i hi hj
    simp at hi
  | cons a t ih =>
    intro l2 h i hi hj
    simp only [mapMExcept] at h
    cases hfa : f a with
    | error e =>
      simp only [hfa] at h
      exact Except.noConfusion h
    | ok b =>
      simp only [hfa] at h
      cases hrec : mapMExcept f t with
      | error e =>
        simp only [hrec] at h
        exact Except.noConfusion h
      | ok bs =>
        simp only [hrec] at h
        injection h with h2
        subst h2
        cases i with
        | zero => simpa using hfa
        | succ n =>
          have hi2 : n < t.length := by simpa using hi
          have hj2 : n < bs.length := by simpa using hj
          simpa using ih bs hrec n hi2 hj2

lemma mapMExcept_isOk {α β : Type} (f : α → Except String β) :
    ∀ l : List α, exceptIsOk (mapMExcept f l) = true ↔ ∀ a ∈ l, exceptIsOk (f a) = true := by
  intro l
  induction l with
  | nil => simp [mapMExcept, exceptIsOk]
  | cons a t ih =>
    simp only [mapMExcept, List.forall_mem_cons]
    cases hfa : f a with
    | error e =>
      simp [hfa, exceptIsOk_error]
    | ok b =>
      cases hrec : mapMExcept f t with
      | error e =>
        simp [hfa, hrec, exceptIsOk_ok, exceptIsOk_error, ← ih]
      | ok bs =>
        simp [hfa, hrec, exceptIsOk_ok, exceptIsOk_error, ← ih]

lemma find?_first_match (id : String) (d : DeviceInfo) (l2 : List DeviceInfo) :
    ∀ l1 : List DeviceInfo, (∀ d2 ∈ l1, d2.get_id ≠ id) → d.get_id = id →
      List.find? (fun e => e.get_id == id) (l1 ++ d :: l2) = some d := by
  intro l1
  induction l1 with
  | nil =>
    intro _ hid
    exact List.find?_cons_of_pos l2 (by simp [hid])
  | cons a t ih =>
    intro hl1 hid
    have ha : ¬((fun e => e.get_id == id) a = true) := by
      simpa using hl1 a (by simp)
    rw [List.cons_append,
      @List.find?_cons_of_neg _ (fun e => e.get_id == id) a (t ++ d :: l2) ha]
    exact ih (fun d2 hd2 => hl1 d2 (by simp [hd2])) hid

lemma hexDigitLower : ∀ m : Nat, m < 16 → isLowerHexDigit (Nat.digitChar m) = true := by
  decide

set_option maxRecDepth 4096 in
/-- C5: the class-code resolver is total on bytes: every value `0-255` maps
to exactly one category (it is a function), values outside the assigned
table resolve to `Unknown`, and assigned values do not. -/
theorem class_code_resolver_total :
    ∀ n : Nat, n < 256 →
      (n ∉ assignedClassCodes → ClassCode.from_u8 n = ClassCode.Unknown) ∧
      (n ∈ assignedClassCodes → ClassCode.from_u8 n ≠ ClassCode.Unknown) := by
  decide

/-- Witness for C5 at the concrete bytes `0x04` (unassigned) and `0x03`
(HID). -/
theorem class_code_resolver_total_witness :
    ClassCode.from_u8 0x04 = ClassCode.Unknown ∧
    ClassCode.from_u8 0x03 ≠ ClassCode.Unknown :=
  ⟨(class_code_resolver_total 0x04 (by decide)).1 (by decide),
   (class_code_resolver_total 0x03 (by decide)).2 (by decide)⟩

/-- C2: the scripted capture run (drain 5, 3, 0 bytes; capture
`[1,0,0,0,0,0,0,0]`; operator `A` then `N`; drain 0 bytes; capture
`[2,0,0,0,0,0,0,0]`; operator `B` then `Q`) accumulates exactly
`[(A, [1,..]), (B, [2,..])]` in order, and a draining-read failure or
zero-byte read breaks the drain loop as the no-stale-data signal rather than
being an error. -/
theorem capture_session_scripted_run :
    sessionLoop 2
        [ReadResult.ok 5 [9, 9, 9, 9, 9], ReadResult.ok 3 [7, 7, 7], ReadResult.ok 0 [],
         ReadResult.ok 8 [1, 0, 0, 0, 0, 0, 0, 0], ReadResult.ok 0 [],
         ReadResult.ok 8 [2, 0, 0, 0, 0, 0, 0, 0]]
        ["A\n", "N\n", "B\n", "Q\n"] [] =
      SessionOutcome.finished
        [{ key_name := "A", map := [1, 0, 0, 0, 0, 0, 0, 0] },
         { key_name := "B", map := [2, 0, 0, 0, 0, 0, 0, 0] }] ∧
    (∀ rest : List ReadResult, drainLoop (ReadResult.err :: rest) = some rest) ∧
    (∀ (d : List Nat) (rest : List ReadResult),
       drainLoop (ReadResult.ok 0 d :: rest) = some rest) :=
  ⟨by decide, fun _ => rfl, fun _ _ => rfl⟩

/-- C1 (divergence witness): when the blocking capture read fails, the
session does not abort and nothing is reported — the discarded `Result`
leaves the zero-initialised buffer, which is recorded as the report for the
entered name, and the session finishes normally. -/
theorem capture_read_failure_silently_ignored :
    sessionLoop 1 [ReadResult.ok 0 [], ReadResult.err] ["A\n", "Q\n"] [] =
      SessionOutcome.finished [{ key_name := "A", map := [0, 0, 0, 0, 0, 0, 0, 0] }] := by
  decide

/-- C4 (divergence witness): a failed `write_all` to `config.json` is
ignored — the run completes as if persistence succeeded — while a
serialization or file-creation failure panics. -/
theorem persist_write_failure_ignored :
    persistKeymaps true true false = PersistOutcome.completed false ∧
    persistKeymaps false true true = PersistOutcome.panicked ∧
    persistKeymaps true false true = PersistOutcome.panicked := by
  decide

/-- C8: in the menu sub-state, any line whose stripped content is not one of
`Q`, `q`, `N`, `n` leaves the menu loop's result unchanged (re-prompt, no
state advance), and a whole session run with an invalid `X` menu line
inserted accumulates exactly the entries of the run without it. -/
theorem invalid_menu_input_no_advance :
    (∀ (line s : String) (rest : List String),
       stripNewline line = some s → s ≠ "Q" → s ≠ "q" → s ≠ "N" → s ≠ "n" →
       menuLoop (line :: rest) = menuLoop rest) ∧
    sessionLoop 2
        [ReadResult.ok 0 [], ReadResult.ok 8 [1, 0, 0, 0, 0, 0, 0, 0], ReadResult.ok 0 [],
         ReadResult.ok 8 [2, 0, 0, 0, 0, 0, 0, 0]]
        ["A\n", "X\n", "N\n", "B\n", "Q\n"] [] =
      sessionLoop 2
        [ReadResult.ok 0 [], ReadResult.ok 8 [1, 0, 0, 0, 0, 0, 0, 0], ReadResult.ok 0 [],
         ReadResult.ok 8 [2, 0, 0, 0, 0, 0, 0, 0]]
        ["A\n", "N\n", "B\n", "Q\n"] [] := by
  constructor
  · intro line s rest h hQ hq hN hn
    simp [menuLoop, h, hQ, hq, hN, hn]
  · decide

/-- Witness for C8 at the concrete invalid menu line `"X\n"`. -/
theorem invalid_menu_input_no_advance_witness :
    menuLoop ["X\n", "Q\n"] = menuLoop ["Q\n"] :=
  invalid_menu_input_no_advance.1 "X\n" "X" ["Q\n"] (by decide) (by decide) (by decide)
    (by decide) (by decide)

/-- C10: each console read strips the trailing newline with `.unwrap()`:
a name line without a final newline panics the session from the name prompt,
a menu line without one panics the menu loop, and a concrete run shows a
panic after one captured entry, which is therefore never persisted. -/
theorem console_line_without_newline_panics :
    (∀ (fuel : Nat) (reads reads1 : List ReadResult) (line : String)
       (rest : List String) (acc : List Keymap),
       drainLoop reads = some reads1 → stripNewline line = none →
       sessionLoop (fuel + 1) reads (line :: rest) acc = SessionOutcome.panicked acc) ∧
    (∀ (line : String) (rest : List String),
       stripNewline line = none → menuLoop (line :: rest) = MenuResult.panicked) ∧
    sessionLoop 1 [ReadResult.ok 0 [], ReadResult.ok 8 [1, 0, 0, 0, 0, 0, 0, 0]]
        ["A\n", "X"] [] =
      SessionOutcome.panicked [{ key_name := "A", map := [1, 0, 0, 0, 0, 0, 0, 0] }] := by
  refine ⟨?_, ?_, by decide⟩
  · intro fuel reads reads1 line rest acc h1 h2
    simp [sessionLoop, h1, h2]
  · intro line rest h
    simp [menuLoop, h]

/-- Witness for C10 at a concrete newline-less name line. -/
theorem console_line_without_newline_panics_witness :
    sessionLoop 1 [ReadResult.ok 0 []] ["A", "Q\n"] [] = SessionOutcome.panicked [] :=
  console_line_without_newline_panics.1 0 [ReadResult.ok 0 []] [] "A" ["Q\n"] []
    (by decide) (by decide)

/-- C3 counterexample: with a working context holding a failing device and a
readable device, the whole enumeration returns the failing device's error —
the readable device is not returned, so a per-device failure is not skipped. -/
theorem enumeration_not_skip_and_continue :
    UsbDevices.new (Except.ok [rawDevBad, rawDevOk]) =
      Except.error "device descriptor read failed" ∧
    exceptIsOk (buildDevice rawDevOk) = true := by
  constructor
  · rfl
  · rfl

/-- C3 (amended): enumeration is all-or-nothing — a context failure
propagates, the enumeration succeeds exactly when every device's build
succeeds, and on success no device is skipped: the result holds one
`DeviceInfo` per raw device, and the entry at each position is the built
tree of the raw device at that same position (in-order correspondence). -/
theorem enumeration_all_or_nothing :
    (∀ e : String, UsbDevices.new (Except.error e) = Except.error e) ∧
    (∀ devs : List RawDevice,
       exceptIsOk (UsbDevices.new (Except.ok devs)) = true ↔
         ∀ d ∈ devs, exceptIsOk (buildDevice d) = true) ∧
    (∀ (devs : List RawDevice) (us : UsbDevices),
       UsbDevices.new (Except.ok devs) = Except.ok us →
         us.devices.length = devs.length ∧
         ∀ (i : Nat) (hi : i < devs.length) (hj : i < us.devices.length),
           buildDevice (devs.get ⟨i, hi⟩) = Except.ok (us.devices.get ⟨i, hj⟩)) := by
  refine ⟨fun e => rfl, fun devs => ?_, fun devs us h => ?_⟩
  · have h1 : exceptIsOk (UsbDevices.new (Except.ok devs)) =
        exceptIsOk (mapMExcept buildDevice devs) := by
      simp only [UsbDevices.new]
      cases mapMExcept buildDevice devs <;> rfl
    rw [h1, mapMExcept_isOk]
  · simp only [UsbDevices.new] at h
    cases hm : mapMExcept buildDevice devs with
    | error e =>
      simp only [hm] at h
      exact Except.noConfusion h
    | ok infos =>
      simp only [hm] at h
      injection h with h2
      subst h2
      refine ⟨by simpa using mapMExcept_ok_length buildDevice devs infos hm, ?_⟩
      intro i hi hj
      exact mapMExcept_ok_get buildDevice devs infos hm i hi (by simpa using hj)

/-- Witness for C3 (amended): a failing context propagates, and a one-device
enumeration succeeds when that device builds. -/
theorem enumeration_all_or_nothing_witness :
    UsbDevices.new (Except.error "no usb subsystem") = Except.error "no usb subsystem" ∧
    exceptIsOk (UsbDevices.new (Except.ok [rawDevOk])) = true :=
  ⟨enumeration_all_or_nothing.1 "no usb subsystem",
   (enumeration_all_or_nothing.2.1 [rawDevOk]).mpr (by decide)⟩

/-- C7: whenever `buildDevice` completes successfully, the built tree holds
exactly `num_configurations` configurations — one per index of the
`0..num_configurations` read loop. -/
theorem configurations_length_matches_declared (i : RawDevice) (di : DeviceInfo)
    (h : buildDevice i = Except.ok di) :
    di.configurations.length = di.num_configurations := by
  cases hd : i.device_descriptor with
  | error e =>
    simp only [buildDevice, hd] at h
    exact Except.noConfusion h
  | ok d =>
    simp only [buildDevice, hd] at h
    split at h
    · exact Except.noConfusion h
    · rename_i configurations hrec
      injection h with h2
      subst h2
      simpa using mapMExcept_ok_length _ _ _ hrec

/-- Witness for C7 at a concrete two-configuration device. -/
theorem configurations_length_matches_declared_witness :
    diTwoCfg.configurations.length = diTwoCfg.num_configurations :=
  configurations_length_matches_declared rawDevTwoCfg diTwoCfg (by rfl)

/-- C6: lookup by identity returns `none` exactly when no device's formatted
identity equals the string, any returned device has the looked-up identity
and belongs to the set, duplicates resolve to the first in enumeration
order, and the formatted identity fields are four lowercase hex digits. -/
theorem get_by_id_lookup :
    ∀ (us : UsbDevices) (id : String),
      ((∀ d ∈ us.devices, d.get_id ≠ id) → us.get_by_id id = none) ∧
      (∀ d : DeviceInfo, us.get_by_id id = some d → d.get_id = id ∧ d ∈ us.devices) ∧
      (∀ (l1 : List DeviceInfo) (d : DeviceInfo) (l2 : List DeviceInfo),
         us.devices = l1 ++ d :: l2 → d.get_id = id →
         (∀ d2 ∈ l1, d2.get_id ≠ id) → us.get_by_id id = some d) ∧
      (∀ n : Nat, n < 65536 →
         (formatHex4 n).length = 4 ∧ (formatHex4 n).data.all isLowerHexDigit = true) := by
  intro us id
  refine ⟨?_, ?_, ?_, ?_⟩
  · intro h
    simp only [UsbDevices.get_by_id]
    rw [List.find?_eq_none]
    intro x hx
    simpa using h x hx
  · intro d h
    simp only [UsbDevices.get_by_id] at h
    exact ⟨by simpa using List.find?_some h, List.mem_of_find?_eq_some h⟩
  · intro l1 d l2 hdev hid hl1
    simp only [UsbDevices.get_by_id, hdev]
    exact find?_first_match id d l2 l1 hl1 hid
  · intro n _
    refine ⟨rfl, ?_⟩
    have hc : ∀ x : Nat, isLowerHexDigit (Nat.digitChar (x % 16)) = true :=
      fun x => hexDigitLower (x % 16) (Nat.mod_lt x (by norm_num))
    simp [formatHex4, hc]

/-- Witness for C6: duplicate identities resolve to the first device, and a
concrete vendor id formats to four lowercase hex digits. -/
theorem get_by_id_lookup_witness :
    usDup.get_by_id "04d8:00dd" = some devDup1 ∧ (formatHex4 0x04d8).length = 4 :=
  ⟨(get_by_id_lookup usDup "04d8:00dd").2.2.1 [] devDup1 [devDup2] rfl (by decide)
     (by simp),
   ((get_by_id_lookup usDup "04d8:00dd").2.2.2 0x04d8 (by decide)).1⟩

lemma stringMkData (l : List Char) : (String.mk l).data = l := rfl

lemma parseLit_append (ls : List Char) : ∀ cs : List Char, parseLit ls (ls ++ cs) = some cs := by
  induction ls with
  | nil => intro cs; rfl
  | cons l t ih =>
    intro cs
    simp [parseLit, ih]

lemma parseStringBody_escape : ∀ s rest : List Char,
    parseStringBody (escapeString s ++ '"' :: rest) = some (s, rest) := by
  intro s
  induction s with
  | nil =>
    intro rest
    rw [show escapeString [] ++ '"' :: rest = '"' :: rest by simp [escapeString]]
    rw [parseStringBody.eq_def]
    simp
  | cons c cs ih =>
    intro rest
    by_cases hc : c = '"' ∨ c = '\\'
    · have h1 : escapeString (c :: cs) = '\\' :: c :: escapeString cs := by
        simp [escapeString, escapeChar, hc]
      rw [h1]
      simp only [List.cons_append]
      rw [parseStringBody.eq_def]
      simp [ih]
    · have h1 : escapeString (c :: cs) = c :: escapeString cs := by
        simp [escapeString, escapeChar, hc]
      push_neg at hc
      rw [h1]
      simp only [List.cons_append]
      rw [parseStringBody.eq_def]
      simp [hc.1, hc.2, ih]

lemma takeDigits_append : ∀ ds rest : List Char, ds.all Char.isDigit = true →
    headNonDigit rest = true → takeDigits (ds ++ rest) = (ds, rest) := by
  intro ds
  induction ds with
  | nil =>
    intro rest _ hrest
    cases rest with
    | nil => rfl
    | cons c r =>
      have hcd : c.isDigit = false := by simpa [headNonDigit] using hrest
      simp [takeDigits, hcd]
  | cons d t ih =>
    intro rest hall hrest
    simp only [List.all_cons, Bool.and_eq_true] at hall
    simp [takeDigits, hall.1, ih rest hall.2 hrest]

set_option maxRecDepth 8192 in
lemma showByte_all_digits : ∀ n : Nat, n < 256 → (showByte n).all Char.isDigit = true := by
  decide

set_option maxRecDepth 8192 in
lemma showByte_ne_nil : ∀ n : Nat, n < 256 → showByte n ≠ [] := by
  decide

set_option maxRecDepth 8192 in
lemma digitsVal_showByte : ∀ n : Nat, n < 256 → digitsVal (showByte n) = n := by
  decide

lemma parseByteNum_prefix (n : Nat) (h : n < 256) (rest : List Char)
    (hrest : headNonDigit rest = true) :
    parseByteNum (showByte n ++ rest) = some (n, rest) := by
  have ht := takeDigits_append (showByte n) rest (showByte_all_digits n h) hrest
  cases hs : showByte n with
  | nil => exact absurd hs (showByte_ne_nil n h)
  | cons c cs =>
    have hv := digitsVal_showByte n h
    rw [hs] at ht hv
    rw [List.cons_append] at ht
    simp [parseByteNum, hs, ht, hv]

lemma parseByteThen_prefix (sep : Char) (hsep : sep.isDigit = false) (n : Nat) (h : n < 256)
    (rest : List Char) :
    parseByteThen sep (showByte n ++ sep :: rest) = some (n, rest) := by
  have h1 := parseByteNum_prefix n h (sep :: rest) (by simp [headNonDigit, hsep])
  simp [parseByteThen, h1, parseChar]

lemma parseMap_eight (b0 b1 b2 b3 b4 b5 b6 b7 : Nat)
    (h0 : b0 < 256) (h1 : b1 < 256) (h2 : b2 < 256) (h3 : b3 < 256) (h4 : b4 < 256)
    (h5 : b5 < 256) (h6 : b6 < 256) (h7 : b7 < 256) (rest : List Char) :
    parseMap (serializeMap [b0, b1, b2, b3, b4, b5, b6, b7] ++ rest) =
      some ([b0, b1, b2, b3, b4, b5, b6, b7], rest) := by
  simp [serializeMap, serializeMapTail, parseMap, parseChar,
    List.cons_append, List.append_assoc,
    parseByteThen_prefix ',' (by decide) b0 h0,
    parseByteThen_prefix ',' (by decide) b1 h1,
    parseByteThen_prefix ',' (by decide) b2 h2,
    parseByteThen_prefix ',' (by decide) b3 h3,
    parseByteThen_prefix ',' (by decide) b4 h4,
    parseByteThen_prefix ',' (by decide) b5 h5,
    parseByteThen_prefix ',' (by decide) b6 h6,
    parseByteThen_prefix ']' (by decide) b7 h7]

lemma list_eight {α : Type} :
    ∀ l : List α, l.length = 8 →
      ∃ a0 a1 a2 a3 a4 a5 a6 a7 : α, l = [a0, a1, a2, a3, a4, a5, a6, a7]
  | [b0, b1, b2, b3, b4, b5, b6, b7], _ => ⟨b0, b1, b2, b3, b4, b5, b6, b7, rfl⟩
  | [], h => by simp at h
  | [_], h => by simp at h
  | [_, _], h => by simp at h
  | [_, _, _], h => by simp at h
  | [_, _, _, _], h => by simp at h
  | [_, _, _, _, _], h => by simp at h
  | [_, _, _, _, _, _], h => by simp at h
  | [_, _, _, _, _, _, _], h => by simp at h
  | _ :: _ :: _ :: _ :: _ :: _ :: _ :: _ :: _ :: _, h => by simp at h

lemma serializeKeymapChars_exposed (k : Keymap) (rest : List Char) :
    serializeKeymapChars k ++ rest =
      '\x7b' :: (keyNameLit ++ (escapeString k.key_name.data ++
        ('"' :: (mapLit ++ (serializeMap k.map ++ ('\x7d' :: rest)))))) := by
  simp [serializeKeymapChars, List.cons_append, List.append_assoc]

lemma parseKeymapEntry_prefix (k : Keymap) (hk : wellFormedKeymap k) (rest : List Char) :
    parseKeymapEntry (serializeKeymapChars k ++ rest) = some (k, rest) := by
  obtain ⟨hlen, hbytes⟩ := hk
  obtain ⟨b0, b1, b2, b3, b4, b5, b6, b7, hmap⟩ := list_eight k.map hlen
  obtain ⟨name, map⟩ := k
  simp only at hmap
  subst hmap
  have hb0 : b0 < 256 := hbytes b0 (by simp)
  have hb1 : b1 < 256 := hbytes b1 (by simp)
  have hb2 : b2 < 256 := hbytes b2 (by simp)
  have hb3 : b3 < 256 := hbytes b3 (by simp)
  have hb4 : b4 < 256 := hbytes b4 (by simp)
  have hb5 : b5 < 256 := hbytes b5 (by simp)
  have hb6 : b6 < 256 := hbytes b6 (by simp)
  have hb7 : b7 < 256 := hbytes b7 (by simp)
  rw [serializeKeymapChars_exposed]
  simp [parseKeymapEntry, keyNameLit, mapLit, parseLit, parseChar,
    parseStringBody_escape,
    parseMap_eight b0 b1 b2 b3 b4 b5 b6 b7 hb0 hb1 hb2 hb3 hb4 hb5 hb6 hb7,
    stringMkData]

lemma serializeKeymapsTail_length : ∀ ks : List Keymap,
    ks.length ≤ (serializeKeymapsTail ks).length := by
  intro ks
  induction ks with
  | nil => simp [serializeKeymapsTail]
  | cons k t ih =>
    simp only [serializeKeymapsTail, List.length_cons, List.length_append]
    omega

lemma parseKeymapsTail_roundtrip :
    ∀ (ks : List Keymap) (fuel : Nat) (rest : List Char), ks.length ≤ fuel →
      (∀ k ∈ ks, wellFormedKeymap k) →
      parseKeymapsTail fuel (serializeKeymapsTail ks ++ rest) = some (ks, rest) := by
  intro ks
  induction ks with
  | nil =>
    intro fuel rest _ _
    cases fuel <;> rfl
  | cons k t ih =>
    intro fuel rest hfuel hwf
    cases fuel with
    | zero => simp at hfuel
    | succ f =>
      have hf : t.length ≤ f := by
        simp at hfuel
        omega
      have hent := parseKeymapEntry_prefix k (hwf k (by simp))
        (serializeKeymapsTail t ++ rest)
      have htail := ih f rest hf (fun k2 hk2 => hwf k2 (by simp [hk2]))
      simp only [serializeKeymapsTail, List.cons_append, List.append_assoc]
      simp [parseKeymapsTail, hent, htail]

/-- C9: re-parsing the serialized text of any well-formed keymap sequence
(each report eight bytes below 256) recovers exactly the original sequence,
entry-wise and in order. -/
theorem keymap_serialization_roundtrip (ks : List Keymap)
    (h : ∀ k ∈ ks, wellFormedKeymap k) :
    parseKeymaps (serializeKeymaps ks) = some ks := by
  cases ks with
  | nil => rfl
  | cons k t =>
    have hent := parseKeymapEntry_prefix k (h k (by simp)) (serializeKeymapsTail t)
    have htail := parseKeymapsTail_roundtrip t (serializeKeymapsTail t).length []
      (serializeKeymapsTail_length t) (fun k2 hk2 => h k2 (by simp [hk2]))
    rw [List.append_nil] at htail
    have hexp := serializeKeymapChars_exposed k (serializeKeymapsTail t)
    have hent2 := hent
    rw [hexp] at hent2
    show parseKeymaps
        (String.mk ('[' :: (serializeKeymapChars k ++ serializeKeymapsTail t))) = _
    rw [hexp]
    simp [parseKeymaps, stringMkData, hent2, htail]

/-- Witness for C9 at a concrete two-entry sequence, one key name holding a
quote that must be escaped. -/
theorem keymap_serialization_roundtrip_witness :
    parseKeymaps (serializeKeymaps
      [{ key_name := "A", map := [1, 0, 0, 0, 0, 0, 0, 0] },
       { key_name := "B\"x", map := [2, 255, 0, 0, 0, 0, 0, 0] }]) =
      some
        [{ key_name := "A", map := [1, 0, 0, 0, 0, 0, 0, 0] },
         { key_name := "B\"x", map := [2, 255, 0, 0, 0, 0, 0, 0] }] :=
  keymap_serialization_roundtrip _ (by decide)

end UsbSniffer
